import Mathlib

/-
  Shallow embedding of the Indico entity-search modal (searchFactory,
  InnerUserSearch, GroupSearch, _UserSearch) from
  indico/web/client/js/react/components/principals/Search.jsx.

  JavaScript objects holding form values are modelled as association lists
  from keys to form values; JS truthiness of a form value is made explicit.
  React state updates and callback invocations of the component handlers are
  modelled as pure functions from the component state to a new state together
  with the list of external callback invocations (effects) they perform, in
  order.
-/

namespace IndicoSearch

/-- A value stored in a form-values object: text inputs hold strings,
checkboxes hold booleans. -/
inductive FormValue where
  | str (s : String)
  | bool (b : Bool)
  deriving Repr, DecidableEq

/-- JS truthiness of a form value: a string is truthy iff nonempty, a boolean
is truthy iff it is true. -/
def truthy : FormValue → Bool
  | FormValue.str s => !s.isEmpty
  | FormValue.bool b => b

/-- A form-values object, as the ordered list of its entries. -/
abbrev FormData := List (String × FormValue)

/-- Look up a key in a form-values object and test JS truthiness of the result
(a missing key reads as undefined, which is falsy). -/
def truthyAt (values : FormData) (k : String) : Bool :=
  match values.find? (fun p => p.1 == k) with
  | some p => truthy p.2
  | none => false

/-- JS property assignment obj[k] = v on an object given by its entry list:
if the key is present its value is overwritten in place, otherwise the new
entry is appended at the end. -/
def setKey (l : FormData) (k : String) (v : FormValue) : FormData :=
  if l.any (fun p => p.1 == k) then
    l.map (fun p => if p.1 == k then (k, v) else p)
  else
    l ++ [(k, v)]

/-- JS property deletion: delete obj[k] removes the entry for k. -/
def deleteKey (l : FormData) (k : String) : FormData :=
  l.filter (fun p => p.1 != k)

/-- A search-result / favorite item as shaped by the two runSearch mappers:
users get userId and a string detail, groups get an optional provider detail. -/
structure Item where
  identifier : String
  name : String
  detail : Option String
  group : Bool
  userId : Option Nat
  deriving Repr, DecidableEq

/-- Local React state of the Search component produced by searchFactory:
useState(false) for the modal being open, useState([]) for the staged list. -/
structure SearchState where
  isOpen : Bool
  staged : List Item
  deriving Repr, DecidableEq

/-- Initial component state: modal closed, nothing staged. -/
def initialState : SearchState := { isOpen := false, staged := [] }

/-- External callback invocations performed by the handlers: onAddItems called
with a list (multi confirm) or with one item (single mode), onOpen, onClose. -/
inductive Effect where
  | addItemsList (items : List Item)
  | addItemsSingle (item : Item)
  | opened
  | closed
  deriving Repr, DecidableEq

/-- Whether an effect is an invocation of the external onAddItems callback. -/
def isAddItemsEffect : Effect → Bool
  | Effect.addItemsList _ => true
  | Effect.addItemsSingle _ => true
  | Effect.opened => false
  | Effect.closed => false

/-- isAdded from the Search component: the identifier is already among the
existing prop or among the staged items. -/
def isAdded (existing : List String) (staged : List Item) (item : Item) : Bool :=
  existing.contains item.identifier || staged.any (fun x => x.identifier == item.identifier)

/-- handleAdd: in single mode call onAddItems with the item and close the
modal; otherwise stage the item unless it is already added. -/
def handleAdd (single : Bool) (existing : List String) (st : SearchState) (item : Item) :
    SearchState × List Effect :=
  if single then
    ({ st with isOpen := false }, [Effect.addItemsSingle item])
  else if !isAdded existing st.staged item then
    ({ st with staged := st.staged ++ [item] }, [])
  else
    (st, [])

/-- handleAddButtonClick, the Confirm-button handler: call onAddItems with the
staged list, clear the staged list and close the modal. -/
def handleAddButtonClick (st : SearchState) : SearchState × List Effect :=
  ({ isOpen := false, staged := [] }, [Effect.addItemsList st.staged])

/-- handleOpenClick, invoked by a click on the trigger element: do nothing
when disabled, otherwise open the modal and call onOpen. -/
def handleOpenClick (disabled : Bool) (st : SearchState) : SearchState × List Effect :=
  if disabled then
    (st, [])
  else
    ({ st with isOpen := true }, [Effect.opened])

/-- handleClose, invoked by cancelling or closing the modal: clear the staged
list, close the modal and call onClose. -/
def handleClose (_st : SearchState) : SearchState × List Effect :=
  ({ isOpen := false, staged := [] }, [Effect.closed])

/-- One user-interface step of the Search component: any handler fires. -/
inductive Step (single : Bool) (existing : List String) : SearchState → SearchState → Prop where
  | addStep (st : SearchState) (item : Item) :
      Step single existing st (handleAdd single existing st item).1
  | confirmStep (st : SearchState) :
      Step single existing st (handleAddButtonClick st).1
  | openStep (st : SearchState) (d : Bool) :
      Step single existing st (handleOpenClick d st).1
  | closeStep (st : SearchState) :
      Step single existing st (handleClose st).1

/-- States reachable from the initial component state by handler invocations. -/
inductive Reachable (single : Bool) (existing : List String) : SearchState → Prop where
  | init : Reachable single existing initialState
  | next {st st' : SearchState} :
      Reachable single existing st → Step single existing st st' →
      Reachable single existing st'

/-- Consistency of the staged list: no two staged entries share an identifier,
and no staged identifier occurs in the existing prop. -/
def stagedOk (existing : List String) (staged : List Item) : Prop :=
  staged.Pairwise (fun a b => a.identifier ≠ b.identifier) ∧
    ∀ x ∈ staged, x.identifier ∉ existing

/-- Opaque payload of an HTTP error thrown by the GET request. -/
abbrev AxiosErr := String

/-- Form submission errors as produced by handleSubmitError (field name to
message); its internals live outside this file, so the handlers below take the
function itself as a parameter. -/
abbrev FormErrors := List (String × String)

/-- One user as delivered by the user_search endpoint response. -/
structure UserData where
  identifier : String
  id : Nat
  fullName : String
  email : String
  affiliation : String
  deriving Repr, DecidableEq

/-- Body of a successful user_search response. -/
structure UserResponse where
  users : List UserData
  total : Nat
  deriving Repr, DecidableEq

/-- One group as delivered by the group_search endpoint response. -/
structure GroupData where
  identifier : String
  name : String
  providerTitle : String
  deriving Repr, DecidableEq

/-- Body of a successful group_search response. -/
structure GroupResponse where
  groups : List GroupData
  total : Nat
  deriving Repr, DecidableEq

/-- The shaped result stored by setResult: the mapped items plus the total. -/
structure SearchResult where
  results : List Item
  total : Nat
  deriving Repr, DecidableEq

/-- Shaping of a user_search response by runSearch of InnerUserSearch: each
user becomes an item whose detail is the email, with the affiliation appended
in parentheses when it is truthy (a nonempty string). -/
def processUserResponse (r : UserResponse) : SearchResult :=
  { results := r.users.map (fun u =>
      { identifier := u.identifier
        userId := some u.id
        name := u.fullName
        detail := some (if !u.affiliation.isEmpty then
            u.email ++ " (" ++ u.affiliation ++ ")"
          else
            u.email)
        group := false })
    total := r.total }

/-- Shaping of a group_search response by runSearch of GroupSearch: each group
becomes an item whose detail is the provider title or null when falsy. -/
def processGroupResponse (r : GroupResponse) : SearchResult :=
  { results := r.groups.map (fun g =>
      { identifier := g.identifier
        userId := none
        name := g.name
        detail := if !g.providerTitle.isEmpty then some g.providerTitle else none
        group := true })
    total := r.total }

/-- The query object built by runSearch of InnerUserSearch: keep the truthy
entries of the submitted data, then assign favorites_first = true. -/
def userSearchQuery (data : FormData) : FormData :=
  setKey (data.filter (fun p => truthy p.2)) "favorites_first" (FormValue.bool true)

/-- The query object built by runSearch of GroupSearch: keep the truthy
entries of the submitted data. -/
def groupSearchQuery (data : FormData) : FormData :=
  data.filter (fun p => truthy p.2)

/-- Trace of one runSearch call: the setResult invocations in order, the query
object passed to the search URL, and the value returned by runSearch (the form
errors when the request threw). -/
structure RunTrace where
  resultCalls : List (Option SearchResult)
  query : FormData
  returned : Option FormErrors
  deriving Repr, DecidableEq

/-- runSearch of InnerUserSearch: setResult(null), build the query from the
truthy entries plus favorites_first = true, issue the GET (its outcome is the
resp parameter); on an error return handleSubmitError(error) without touching
the result again, otherwise setResult with the shaped response. -/
def runSearchUser (hse : AxiosErr → FormErrors) (data : FormData)
    (resp : Except AxiosErr UserResponse) : RunTrace :=
  match resp with
  | Except.error e =>
      { resultCalls := [none], query := userSearchQuery data, returned := some (hse e) }
  | Except.ok r =>
      { resultCalls := [none, some (processUserResponse r)]
        query := userSearchQuery data
        returned := none }

/-- runSearch of GroupSearch: setResult(null), build the query from the truthy
entries, issue the GET; on an error return handleSubmitError(error) without
touching the result again, otherwise setResult with the shaped response. -/
def runSearchGroup (hse : AxiosErr → FormErrors) (data : FormData)
    (resp : Except AxiosErr GroupResponse) : RunTrace :=
  match resp with
  | Except.error e =>
      { resultCalls := [none], query := groupSearchQuery data, returned := some (hse e) }
  | Except.ok r =>
      { resultCalls := [none, some (processGroupResponse r)]
        query := groupSearchQuery data
        returned := none }

/-- The result displayed by SearchContent after a sequence of setResult calls,
starting from the initial useState(null). -/
def displayedResult (calls : List (Option SearchResult)) : Option SearchResult :=
  calls.foldl (fun _ c => c) none

/-- validateForm of InnerUserSearch: a form-level error when none of
first_name, last_name, email and affiliation is truthy, undefined otherwise. -/
def validateForm (values : FormData) : Option String :=
  if !truthyAt values "first_name" && !truthyAt values "last_name" &&
      !truthyAt values "email" && !truthyAt values "affiliation" then
    some "No criteria specified"
  else
    none

/-- Outcome of rendering the _UserSearch wrapper: the object supplied through
InitialFormValuesContext, and the caller-owned initialFormValues object after
the call (JS aliasing makes the two the same object). -/
structure WrapperResult where
  contextValue : FormData
  callerObjectAfter : FormData
  deriving Repr, DecidableEq

/-- The _UserSearch wrapper: when withExternalUsers is false it deletes the
external key from the initialFormValues object it was handed (a mutation of
the caller-owned object), then provides that object through context. -/
def _UserSearch (withExternalUsers : Bool) (initialFormValues : FormData) : WrapperResult :=
  let fv := if withExternalUsers then initialFormValues
    else deleteKey initialFormValues "external"
  { contextValue := fv, callerObjectAfter := fv }

lemma handleOpenClick_staged (d : Bool) (st : SearchState) :
    (handleOpenClick d st).1.staged = st.staged := by
  by_cases hd : d <;> simp [handleOpenClick, hd]

lemma isAdded_eq_false {existing : List String} {staged : List Item} {item : Item}
    (h : isAdded existing staged item = false) :
    item.identifier ∉ existing ∧ ∀ x ∈ staged, x.identifier ≠ item.identifier := by
  simp only [isAdded, Bool.or_eq_false_iff] at h
  obtain ⟨h1, h2⟩ := h
  constructor
  · intro hmem
    have : existing.contains item.identifier = true := List.elem_eq_true_of_mem hmem
    rw [this] at h1
    exact Bool.true_eq_false.mp h1
  · intro x hx hEq
    have : staged.any (fun x => x.identifier == item.identifier) = true :=
      List.any_eq_true.mpr ⟨x, hx, by simp [hEq]⟩
    rw [this] at h2
    exact Bool.true_eq_false.mp h2

lemma handleAdd_preserves_stagedOk {existing : List String} {st : SearchState} (item : Item)
    (h : stagedOk existing st.staged) :
    stagedOk existing (handleAdd false existing st item).1.staged := by
  by_cases hA : isAdded existing st.staged item
  · simpa [handleAdd, hA] using h
  · have hA' : isAdded existing st.staged item = false := by simpa using hA
    obtain ⟨hEx, hStaged⟩ := isAdded_eq_false hA'
    simp only [handleAdd, hA', Bool.not_false, if_true, if_false, Bool.false_eq_true]
    refine ⟨?_, ?_⟩
    · rw [List.pairwise_append]
      refine ⟨h.1, List.pairwise_singleton _ _, ?_⟩
      intro a ha b hb
      rw [List.mem_singleton] at hb
      subst hb
      exact hStaged a ha
    · intro x hx
      rcases List.mem_append.mp hx with hx | hx
      · exact h.2 x hx
      · rw [List.mem_singleton] at hx
        subst hx
        exact hEx

lemma reachable_stagedOk {existing : List String} {st : SearchState}
    (h : Reachable false existing st) : stagedOk existing st.staged := by
  induction h with
  | init => exact ⟨List.Pairwise.nil, fun x hx => (List.not_mem_nil x hx).elim⟩
  | next hr hs ih =>
    cases hs with
    | addStep item => exact handleAdd_preserves_stagedOk item ih
    | confirmStep => exact ⟨List.Pairwise.nil, fun x hx => (List.not_mem_nil x hx).elim⟩
    | openStep d => rw [handleOpenClick_staged]; exact ih
    | closeStep => exact ⟨List.Pairwise.nil, fun x hx => (List.not_mem_nil x hx).elim⟩

/-- A concrete user item for exercising the theorems. -/
def sampleItem : Item :=
  { identifier := "User:1", name := "Ada", detail := none, group := false, userId := some 1 }

/-- C2: in multi-select mode handleAdd leaves the component state unchanged
for an item whose identifier is already in existing or already staged, and
consequently every reachable state has a staged list without duplicate
identifiers and without identifiers from existing. -/
theorem staged_item_never_added_twice (existing : List String) (st : SearchState) (item : Item) :
    ((existing.contains item.identifier ||
        st.staged.any (fun x => x.identifier == item.identifier)) = true →
      handleAdd false existing st item = (st, [])) ∧
    (Reachable false existing st → stagedOk existing st.staged) := by
  constructor
  · intro h
    have hA : isAdded existing st.staged item = true := h
    simp [handleAdd, hA]
  · exact reachable_stagedOk

/-- Witness for C2 at a concrete input: an item already in existing is not
staged, and the initial state satisfies the staged-list invariant. -/
theorem staged_item_never_added_twice_witness :
    handleAdd false ["User:1"] initialState sampleItem = (initialState, []) ∧
    stagedOk ["User:1"] initialState.staged :=
  ⟨(staged_item_never_added_twice ["User:1"] initialState sampleItem).1 (by decide),
   (staged_item_never_added_twice ["User:1"] initialState sampleItem).2 Reachable.init⟩

/-- C1: confirming the multi-select dialog via the Confirm-button handler
invokes onAddItems with exactly the current staged list (whatever its
contents, zero or more items), after which the staged list is empty and the
modal is closed. -/
theorem confirm_returns_staged_list (st : SearchState) :
    (handleAddButtonClick st).2 = [Effect.addItemsList st.staged] ∧
    (handleAddButtonClick st).1.staged = [] ∧
    (handleAddButtonClick st).1.isOpen = false :=
  ⟨rfl, rfl, rfl⟩

/-- C3: in multi-select mode handleAdd performs no external callback at all
and leaves the open state alone (it only touches the staged list); onAddItems
is invoked exactly by the Confirm handler (with the staged list) and, in
single mode, by the immediate add — never by the open or close handlers. -/
theorem staged_selection_local_until_confirm (d : Bool) (existing : List String)
    (st : SearchState) (item : Item) :
    (handleAdd false existing st item).2 = [] ∧
    (handleAdd false existing st item).1.isOpen = st.isOpen ∧
    (handleAdd true existing st item).2 = [Effect.addItemsSingle item] ∧
    (handleAddButtonClick st).2 = [Effect.addItemsList st.staged] ∧
    (handleOpenClick d st).2.all (fun e => !isAddItemsEffect e) = true ∧
    (handleClose st).2.all (fun e => !isAddItemsEffect e) = true := by
  refine ⟨?_, ?_, rfl, rfl, ?_, rfl⟩
  · by_cases h : isAdded existing st.staged item <;> simp [handleAdd, h]
  · by_cases h : isAdded existing st.staged item <;> simp [handleAdd, h]
  · by_cases hd : d <;> simp [handleOpenClick, hd, isAddItemsEffect]

/-- C6: closing or cancelling the dialog clears the staged list, closes the
modal, invokes onClose and performs no onAddItems invocation, so unconfirmed
selections are discarded. -/
theorem close_discards_staged (st : SearchState) :
    (handleClose st).1.staged = [] ∧
    (handleClose st).1.isOpen = false ∧
    (handleClose st).2 = [Effect.closed] ∧
    (handleClose st).2.all (fun e => !isAddItemsEffect e) = true :=
  ⟨rfl, rfl, rfl, rfl⟩

/-- C8: in single mode handleAdd immediately invokes onAddItems with the one
item and closes the modal, for every item and every state — isAdded is never
consulted (so an already-existing item is returned again) and the staged list
never grows. -/
theorem single_mode_adds_immediately (existing : List String) (st : SearchState) (item : Item) :
    handleAdd true existing st item = ({ st with isOpen := false }, [Effect.addItemsSingle item]) ∧
    (handleAdd true existing st item).1.staged = st.staged :=
  ⟨rfl, rfl⟩

lemma mem_setKey_self (l : FormData) (k : String) (v : FormValue) :
    (k, v) ∈ setKey l k v := by
  unfold setKey
  split
  · rename_i hAny
    obtain ⟨p, hp, hpk⟩ := List.any_eq_true.mp hAny
    refine List.mem_map.mpr ⟨p, hp, ?_⟩
    simp [hpk]
  · exact List.mem_append_right _ (List.mem_singleton.mpr rfl)

lemma mem_setKey_of_ne (l : FormData) (k : String) (v : FormValue) (q : String × FormValue)
    (hq : q.1 ≠ k) : q ∈ setKey l k v ↔ q ∈ l := by
  unfold setKey
  split
  · constructor
    · intro hmem
      obtain ⟨p, hp, hfp⟩ := List.mem_map.mp hmem
      by_cases hpk : (p.1 == k) = true
      · rw [if_pos hpk] at hfp
        exact absurd (by rw [← hfp]) hq
      · rw [if_neg hpk] at hfp
        rwa [hfp] at hp
    · intro hmem
      refine List.mem_map.mpr ⟨q, hmem, ?_⟩
      rw [if_neg]
      simp [hq]
  · rw [List.mem_append, List.mem_singleton]
    constructor
    · rintro (h | h)
      · exact h
      · exact absurd (by rw [h]) hq
    · exact Or.inl

lemma runSearchUser_query (hse : AxiosErr → FormErrors) (data : FormData)
    (resp : Except AxiosErr UserResponse) :
    (runSearchUser hse data resp).query = userSearchQuery data := by
  cases resp <;> rfl

lemma runSearchGroup_query (hse : AxiosErr → FormErrors) (data : FormData)
    (resp : Except AxiosErr GroupResponse) :
    (runSearchGroup hse data resp).query = groupSearchQuery data := by
  cases resp <;> rfl

/-- C4: the query sent to the search URL holds exactly the truthy entries of
the submitted form values (falsy fields are dropped); the user search
additionally carries favorites_first = true. -/
theorem search_query_truthy_fields (hse : AxiosErr → FormErrors) (data : FormData)
    (respU : Except AxiosErr UserResponse) (respG : Except AxiosErr GroupResponse) :
    ((runSearchGroup hse data respG).query = data.filter (fun p => truthy p.2) ∧
      ∀ q, q ∈ (runSearchGroup hse data respG).query ↔ q ∈ data ∧ truthy q.2 = true) ∧
    (("favorites_first", FormValue.bool true) ∈ (runSearchUser hse data respU).query ∧
      ∀ q : String × FormValue, q.1 ≠ "favorites_first" →
        (q ∈ (runSearchUser hse data respU).query ↔ q ∈ data ∧ truthy q.2 = true)) := by
  refine ⟨⟨?_, ?_⟩, ?_, ?_⟩
  · rw [runSearchGroup_query]; rfl
  · intro q
    rw [runSearchGroup_query]
    exact List.mem_filter
  · rw [runSearchUser_query]
    exact mem_setKey_self _ _ _
  · intro q hq
    rw [runSearchUser_query]
    unfold userSearchQuery
    rw [mem_setKey_of_ne _ _ _ _ hq]
    exact List.mem_filter

/-- Concrete handleSubmitError stand-in for exercising the theorems. -/
def sampleHse : AxiosErr → FormErrors := fun _ => []

/-- Concrete submitted user-search form values: a truthy first name and a
falsy email. -/
def sampleUserData : FormData :=
  [("first_name", FormValue.str "Ada"), ("email", FormValue.str "")]

/-- Witness for C4 at a concrete input: the truthy first_name entry is in the
query the user search sends. -/
theorem search_query_truthy_fields_witness :
    ("first_name", FormValue.str "Ada") ∈
      (runSearchUser sampleHse sampleUserData (Except.error "HTTP 400")).query :=
  ((search_query_truthy_fields sampleHse sampleUserData (Except.error "HTTP 400")
        (Except.error "HTTP 400")).2.2 ("first_name", FormValue.str "Ada")
      (by decide)).mpr ⟨by simp [sampleUserData], by decide⟩

/-- C9: on a failed request runSearch has called setResult(null) exactly once
(before the GET), returns handleSubmitError of the error, and the displayed
result stays null; on any outcome the first setResult call is null. -/
theorem failed_search_shows_no_results (hse : AxiosErr → FormErrors) (data : FormData)
    (e : AxiosErr) (respU : Except AxiosErr UserResponse)
    (respG : Except AxiosErr GroupResponse) :
    ((runSearchUser hse data (Except.error e)).resultCalls = [none] ∧
      (runSearchUser hse data (Except.error e)).returned = some (hse e) ∧
      displayedResult (runSearchUser hse data (Except.error e)).resultCalls = none) ∧
    ((runSearchGroup hse data (Except.error e)).resultCalls = [none] ∧
      (runSearchGroup hse data (Except.error e)).returned = some (hse e) ∧
      displayedResult (runSearchGroup hse data (Except.error e)).resultCalls = none) ∧
    (runSearchUser hse data respU).resultCalls.head? = some none ∧
    (runSearchGroup hse data respG).resultCalls.head? = some none := by
  refine ⟨⟨rfl, rfl, rfl⟩, ⟨rfl, rfl, rfl⟩, ?_, ?_⟩
  · cases respU <;> rfl
  · cases respG <;> rfl

/-- C10: validateForm returns the form-level error No criteria specified
exactly when all of first_name, last_name, email and affiliation are falsy,
and passes (returns undefined) exactly when at least one is truthy. -/
theorem validate_form_rejects_empty_query (values : FormData) :
    (validateForm values = some "No criteria specified" ↔
      (truthyAt values "first_name" = false ∧ truthyAt values "last_name" = false ∧
        truthyAt values "email" = false ∧ truthyAt values "affiliation" = false)) ∧
    (validateForm values = none ↔
      (truthyAt values "first_name" = true ∨ truthyAt values "last_name" = true ∨
        truthyAt values "email" = true ∨ truthyAt values "affiliation" = true)) := by
  cases h1 : truthyAt values "first_name" <;> cases h2 : truthyAt values "last_name" <;>
    cases h3 : truthyAt values "email" <;> cases h4 : truthyAt values "affiliation" <;>
      simp [validateForm, h1, h2, h3, h4]

/-- C5 counterexample: with the disabled prop true, a click reaching the
trigger handler neither opens the modal nor invokes onOpen, refuting the
claim as stated for every click. -/
theorem trigger_click_counterexample :
    ¬((handleOpenClick true initialState).1.isOpen = true ∧
      (handleOpenClick true initialState).2 = [Effect.opened]) := by
  decide

/-- C5 amended: whenever the disabled prop is false, a click on the trigger
element opens the modal and invokes onOpen (leaving the staged list alone);
with disabled true the click is ignored entirely. -/
theorem trigger_click_opens_modal (st : SearchState) :
    ((handleOpenClick false st).1.isOpen = true ∧
      (handleOpenClick false st).2 = [Effect.opened] ∧
      (handleOpenClick false st).1.staged = st.staged) ∧
    handleOpenClick true st = (st, []) :=
  ⟨⟨rfl, rfl, rfl⟩, rfl⟩

/-- C7 counterexample: with withExternalUsers false and an external entry in
initialFormValues, the context does not receive the object as passed and the
caller-owned object is left modified. -/
theorem user_search_wrapper_counterexample :
    ¬((_UserSearch false [("external", FormValue.bool true)]).contextValue =
        [("external", FormValue.bool true)] ∧
      (_UserSearch false [("external", FormValue.bool true)]).callerObjectAfter =
        [("external", FormValue.bool true)]) := by
  decide

/-- C7 amended: with withExternalUsers true the wrapper passes the
initialFormValues object through to the form context unmodified; with
withExternalUsers false it first deletes the external key — mutating the
caller-owned object — and the context receives that modified object. -/
theorem user_search_wrapper_form_values (fv : FormData) :
    ((_UserSearch true fv).contextValue = fv ∧
      (_UserSearch true fv).callerObjectAfter = fv) ∧
    ((_UserSearch false fv).contextValue = deleteKey fv "external" ∧
      (_UserSearch false fv).callerObjectAfter = deleteKey fv "external") :=
  ⟨⟨rfl, rfl⟩, rfl, rfl⟩

end IndicoSearch
